import Mathlib

/-!
# Geometry of canvas items (`model/cairoItems.cc`)

A shallow embedding of the layout and hit-testing code for operation and
variable items: `RenderOperation`, `RenderVariable`, their constructors,
`geom`, `updatePortLocs`, `inImage` and `handlePos`.

C `float`/`double` arithmetic is idealised as arithmetic in a linearly ordered
field `K` (rounding is not modelled), so every definition can be run on `ℚ`
and every theorem also holds on `ℝ`.  The C library's `cos`, `sin` and `M_PI`
are taken as a parameter `Trig K`; the collaborators whose code is not part of
`cairoItems.cc` (the text layout engine and the item model's methods) are
parameters as well.
-/

namespace minsky

/-! ## Collaborators -/

/-- The C library's `cos`, `sin` and the constant `M_PI`. -/
structure Trig (K : Type) where
  cos : K → K
  sin : K → K
  pi : K

/-- The facts about `cos` and `sin` that the geometry relies on. -/
structure Trig.Lawful {K : Type} [Field K] (T : Trig K) : Prop where
  cos_sq_add_sin_sq : ∀ t : K, T.cos t * T.cos t + T.sin t * T.sin t = 1
  cos_zero : T.cos 0 = 1
  sin_zero : T.sin 0 = 0

/-- A runnable instance on `ℚ`: the tangent half-angle parametrisation of the
unit circle, lawful for every rational argument. -/
def ratTrig : Trig ℚ where
  cos t := (1 - t * t) / (1 + t * t)
  sin t := 2 * t / (1 + t * t)
  pi := 22 / 7

/-- Exceptions a call can raise: ecolab's `error` class (the only one the
`catch (error)` clause of `RenderVariable::RenderVariable` handles), or any
other C++ exception. -/
inductive Exn where
  | error (what : String)
  | other (what : String)
  deriving DecidableEq, Repr

/-- The `try { body } catch (error) { handler }` statement: an `error` raised
by the body is replaced by the handler's result, any other exception
propagates. -/
def tryCatchError {α : Type} (body : Except Exn α) (handler : α) : Except Exn α :=
  match body with
  | .ok a => .ok a
  | .error (.error _) => .ok handler
  | .error (.other s) => .error (.other s)

/-- Modelled from the spec: `VariableType`, whose declaration is not in
`cairoItems.cc`; the spec lists the variable subtypes constant, flow, stock
and parameter.  The code only asks whether the type is `constant`. -/
inductive VariableType where
  | constant
  | flow
  | stock
  | parameter
  deriving DecidableEq, Repr

/-- Modelled from the spec: a `Port`, an attachment point stored as a
world-space coordinate that accepts a `moveTo(x, y)` write. -/
structure Port (K : Type) where
  x : K
  y : K
  deriving DecidableEq, Repr

/-- Modelled from the spec: `Port::moveTo` overwrites the port's coordinate. -/
def Port.moveTo {K : Type} (_p : Port K) (x y : K) : Port K :=
  { x := x, y := y }

/-- The part of `VariableBase` that `cairoItems.cc` reads or writes. -/
structure VariableBase (K : Type) where
  type : VariableType
  name : String
  value : K
  x : K
  y : K
  rotation : K
  zoomFactor : K
  sliderMin : K
  sliderMax : K
  ports : List (Port K)
  deriving DecidableEq, Repr

/-- The result of `engExp()`: only the field `engExp` is used here. -/
structure EngNotation where
  sciExp : Int
  engExp : Int
  deriving DecidableEq, Repr

/-- The methods of the item model that `cairoItems.cc` calls and that are
defined elsewhere.  The formatting methods may raise; the slider mutators
return the updated variable. -/
structure ItemModel (K : Type) where
  engExp : VariableBase K → Except Exn EngNotation
  mantissa : VariableBase K → EngNotation → Except Exn String
  expMultiplier : Int → Except Exn String
  initSliderBounds : VariableBase K → VariableBase K
  adjustSliderBounds : VariableBase K → VariableBase K

/-- Width, height and top offset of a rendered label. -/
structure LabelMetrics (K : Type) where
  width : K
  height : K
  top : K
  deriving DecidableEq, Repr

/-- The text layout collaborator: metrics of a markup string at a font size,
and the translation `latexToPango`. -/
structure TextMetrics (K : Type) where
  measure : Nat → String → LabelMetrics K
  latexToPango : String → String

/-- The state of a `Pango` object: what `setFontSize` and `setMarkup` set. -/
structure Pango where
  fontSize : Nat
  markup : String
  deriving DecidableEq, Repr

/-- A freshly constructed `Pango`; both fields are overwritten before any
metric is read. -/
def Pango.init : Pango := { fontSize := 0, markup := "" }

def Pango.setFontSize (p : Pango) (sz : Nat) : Pango := { p with fontSize := sz }

def Pango.setMarkup (p : Pango) (m : String) : Pango := { p with markup := m }

def Pango.width {K : Type} (M : TextMetrics K) (p : Pango) : K :=
  (M.measure p.fontSize p.markup).width

def Pango.height {K : Type} (M : TextMetrics K) (p : Pango) : K :=
  (M.measure p.fontSize p.markup).height

def Pango.top {K : Type} (M : TextMetrics K) (p : Pango) : K :=
  (M.measure p.fontSize p.markup).top

/-! ## RenderVariable -/

/-- A `RenderVariable`: its `Pango` base object, the variable it renders and
the derived `w`, `h`, `hoffs`. -/
structure RenderVariable (K : Type) where
  pango : Pango
  var : VariableBase K
  w : K
  h : K
  hoffs : K
  deriving DecidableEq, Repr

def RenderVariable.width {K : Type} (rv : RenderVariable K) : K := rv.w

def RenderVariable.height {K : Type} (rv : RenderVariable K) : K := rv.h

/-- The markup string computed inside the `try` block of
`RenderVariable::RenderVariable`: `engExp()`, the replacement of exponent -3 by
0, then `mantissa(val) + expMultiplier(val.engExp)`.  C++ leaves the order of
the two operand calls unspecified; `expMultiplier` is called first here, as in
code that evaluates the operands from right to left.  The order only decides
which exception is seen when both calls raise. -/
def RenderVariable.constantLabel {K : Type} (I : ItemModel K) (var : VariableBase K) :
    Except Exn String := do
  let val ← I.engExp var
  let val := if val.engExp = -3 then { val with engExp := 0 } else val
  let e ← I.expMultiplier val.engExp
  let m ← I.mantissa var val
  pure (m ++ e)

/-- The constructor `RenderVariable::RenderVariable`. -/
def RenderVariable.ctor {K : Type} [LinearOrderedField K] (M : TextMetrics K)
    (I : ItemModel K) (var : VariableBase K) : Except Exn (RenderVariable K) := do
  let p := Pango.init.setFontSize 12
  if var.type = VariableType.constant then
    let p ← tryCatchError
      (do let s ← RenderVariable.constantLabel I var
          pure (p.setMarkup s))
      (p.setMarkup "0")
    pure { pango := p, var := var, w := 0.5 * p.width M, h := 0.5 * p.height M,
           hoffs := p.top M }
  else
    let p := p.setMarkup (M.latexToPango var.name)
    pure { pango := p, var := var, w := 0.5 * p.width M + 12, h := 0.5 * p.height M + 4,
           hoffs := p.top M }

/-- The method `RenderVariable::handlePos`: the value returned, computed on the
variable as `initSliderBounds` and `adjustSliderBounds` leave it. -/
def RenderVariable.handlePos {K : Type} [LinearOrderedField K] (I : ItemModel K)
    (rv : RenderVariable K) : K :=
  let var := I.adjustSliderBounds (I.initSliderBounds rv.var)
  rv.w * (var.value - 0.5 * (var.sliderMin + var.sliderMax)) / (var.sliderMax - var.sliderMin)

/-- A point of the plane. -/
structure Point (K : Type) where
  x : K
  y : K
  deriving DecidableEq, Repr

/-- A polygon as the sequence of its vertices. -/
abbrev Polygon (K : Type) := List (Point K)

/-- Modelled from the spec: the class `Rotate` (the RotationTransform), whose
declaration is not in `cairoItems.cc`: a rotation by an angle given in degrees
about the pivot `(x0, y0)`, in the same sense as `updatePortLocs` rotates. -/
structure Rotate (K : Type) where
  ca : K
  sa : K
  x0 : K
  y0 : K
  deriving DecidableEq, Repr

/-- Modelled from the spec: the constructor `Rotate(rot, x0, y0)`. -/
def Rotate.ctor {K : Type} [LinearOrderedField K] (T : Trig K) (rot x0 y0 : K) : Rotate K :=
  let angle := rot * T.pi / 180
  { ca := T.cos angle, sa := T.sin angle, x0 := x0, y0 := y0 }

/-- Modelled from the spec: `Rotate::operator()`, the image of `(x1, y1)`. -/
def Rotate.apply {K : Type} [LinearOrderedField K] (r : Rotate K) (x1 y1 : K) : Point K :=
  { x := r.ca * (x1 - r.x0) - r.sa * (y1 - r.y0) + r.x0,
    y := r.sa * (x1 - r.x0) + r.ca * (y1 - r.y0) + r.y0 }

/-- The vertices `RenderVariable::geom` appends to the polygon, in order,
before `correct` is applied. -/
def RenderVariable.geomVertices {K : Type} [LinearOrderedField K] (T : Trig K)
    (rv : RenderVariable K) : Polygon K :=
  let x := rv.var.x
  let y := rv.var.y
  let wz := rv.w * rv.var.zoomFactor
  let hz := rv.h * rv.var.zoomFactor
  let rotate := Rotate.ctor T rv.var.rotation x y
  [rotate.apply (x - wz) (y - hz), rotate.apply (x - wz) (y + hz),
   rotate.apply (x + wz) (y + hz), rotate.apply (x + wz) (y - hz)]

/-- The method `RenderVariable::geom`; `correct` is boost's winding
correction. -/
def RenderVariable.geom {K : Type} [LinearOrderedField K] (T : Trig K)
    (correct : Polygon K → Polygon K) (rv : RenderVariable K) : Polygon K :=
  correct (rv.geomVertices T)

/-- The method `RenderVariable::updatePortLocs`: the variable after the two
`moveTo` writes; `none` when the variable has fewer than two ports. -/
def RenderVariable.updatePortLocs {K : Type} [LinearOrderedField K] (T : Trig K)
    (rv : RenderVariable K) : Option (VariableBase K) :=
  let var := rv.var
  let angle := var.rotation * T.pi / 180
  let x0 := rv.w
  let y0 : K := 0
  let x1 := -rv.w + 2
  let y1 : K := 0
  let sa := T.sin angle
  let ca := T.cos angle
  match var.ports with
  | p0 :: p1 :: rest =>
    some { var with
      ports :=
        p0.moveTo (var.x + var.zoomFactor * (x0 * ca - y0 * sa))
                  (var.y + var.zoomFactor * (y0 * ca + x0 * sa)) ::
        p1.moveTo (var.x + var.zoomFactor * (x1 * ca - y1 * sa))
                  (var.y + var.zoomFactor * (y1 * ca + x1 * sa)) :: rest }
  | _ => none

/-- The method `RenderVariable::inImage`. -/
def RenderVariable.inImage {K : Type} [LinearOrderedField K] (T : Trig K)
    (rv : RenderVariable K) (x y : K) : Bool :=
  let dx := x - rv.var.x
  let dy := y - rv.var.y
  let rx := dx * T.cos (rv.var.rotation * T.pi / 180) - dy * T.sin (rv.var.rotation * T.pi / 180)
  let ry := dy * T.cos (rv.var.rotation * T.pi / 180) + dx * T.sin (rv.var.rotation * T.pi / 180)
  decide (rx ≥ -rv.w) && decide (rx ≤ rv.w) && decide (ry ≥ -rv.h) && decide (ry ≤ rv.h)

/-! ## RenderOperation -/

/-- The cases of `OperationType` that `RenderOperation::RenderOperation`
distinguishes; `other` stands for every type that takes the `default:`
branch. -/
inductive OperationType where
  | constant
  | data
  | integrate
  | other
  deriving DecidableEq, Repr

/-- The part of an operation that `cairoItems.cc` reads: the fields of
`OperationBase`, the `description` of a `NamedOp`, and `coupled()`, `intVar`,
`intVarOffset` of an `IntOp`. -/
structure OperationBase (K : Type) where
  type : OperationType
  l : K
  r : K
  h : K
  x : K
  y : K
  rotation : K
  zoomFactor : K
  description : String
  coupled : Bool
  intVar : VariableBase K
  intVarOffset : K
  deriving DecidableEq, Repr

/-- A `RenderOperation`: the operation and the derived `w`, `h`, `hoffs`. -/
structure RenderOperation (K : Type) where
  op : OperationBase K
  w : K
  h : K
  hoffs : K
  deriving DecidableEq, Repr

def RenderOperation.width {K : Type} (ro : RenderOperation K) : K := ro.w

def RenderOperation.height {K : Type} (ro : RenderOperation K) : K := ro.h

/-- The constructor `RenderOperation::RenderOperation`. -/
def RenderOperation.ctor {K : Type} [LinearOrderedField K] (M : TextMetrics K)
    (I : ItemModel K) (op : OperationBase K) : Except Exn (RenderOperation K) := do
  let l := op.l
  let r := op.r
  let w := 0.5 * (-l + r)
  let h := op.h
  match op.type with
  | OperationType.constant | OperationType.data =>
    let pango := (Pango.init.setFontSize 10).setMarkup (M.latexToPango op.description)
    pure { op := op, w := 0.5 * pango.width M + 2, h := 0.5 * pango.height M + 4,
           hoffs := pango.top M }
  | OperationType.integrate =>
    if op.coupled then
      let rv ← RenderVariable.ctor M I op.intVar
      pure { op := op, w := w + (op.intVarOffset + rv.width), h := max h rv.height, hoffs := 0 }
    else
      pure { op := op, w := w, h := h, hoffs := 0 }
  | OperationType.other => pure { op := op, w := w, h := h, hoffs := 0 }

/-- The vertices `RenderOperation::geom` appends to the polygon, in order,
before `correct` is applied. -/
def RenderOperation.geomVertices {K : Type} [LinearOrderedField K] (T : Trig K)
    (ro : RenderOperation K) : Polygon K :=
  let op := ro.op
  let rotate := Rotate.ctor T op.rotation op.x op.y
  let zl := op.l * op.zoomFactor
  let zh := op.h * op.zoomFactor
  let zr := op.r * op.zoomFactor
  [rotate.apply (op.x + zl) (op.y - zh), rotate.apply (op.x + zl) (op.y + zh),
   rotate.apply (op.x + zr) op.y]

/-- The method `RenderOperation::geom`; `correct` is boost's winding
correction. -/
def RenderOperation.geom {K : Type} [LinearOrderedField K] (T : Trig K)
    (correct : Polygon K → Polygon K) (ro : RenderOperation K) : Polygon K :=
  correct (ro.geomVertices T)

/-! ## Sample collaborators, used to run the definitions -/

/-- A text layout engine for tests: every character is 3 units wide at size 10
and 4 at size 12, a line is as high as the font size, the top offset is 1. -/
def sampleMetrics : TextMetrics ℚ where
  measure sz s := { width := (if sz = 10 then 3 else 4) * s.length, height := sz, top := 1 }
  latexToPango s := s

/-- An item model for tests: the value 0 raises `error` in `engExp`, the
mantissa is a fixed string, the multiplier is empty for exponent 0, and the
slider bounds are widened to contain the value. -/
def sampleModel : ItemModel ℚ where
  engExp var := if var.value = 0 then .error (.error "no value") else
    .ok { sciExp := -2, engExp := if var.value < 1 then -3 else 3 }
  mantissa _ e := .ok (if e.engExp = 0 then "0.05" else "50")
  expMultiplier e := .ok (if e = 0 then "" else "e" ++ toString e)
  initSliderBounds var := var
  adjustSliderBounds var :=
    { var with sliderMin := min var.sliderMin var.value, sliderMax := max var.sliderMax var.value }

/-- A variable for tests, at the origin, unrotated, at zoom 1, with two
ports. -/
def sampleVar (type : VariableType) (value sliderMin sliderMax : ℚ) : VariableBase ℚ :=
  { type := type, name := "x", value := value, x := 0, y := 0, rotation := 0, zoomFactor := 1,
    sliderMin := sliderMin, sliderMax := sliderMax, ports := [⟨0, 0⟩, ⟨0, 0⟩] }

/-- A `RenderVariable` for tests with the given half-extents. -/
def sampleRV (var : VariableBase ℚ) (w h : ℚ) : RenderVariable ℚ :=
  { pango := Pango.init, var := var, w := w, h := h, hoffs := 0 }

/-- An operation for tests: at the origin, unrotated, at zoom 1, with extents
`l = -10`, `r = 10`, `h = 3`, embed offset 5 and the given embedded variable. -/
def sampleOp (type : OperationType) (coupled : Bool) (intVar : VariableBase ℚ) :
    OperationBase ℚ :=
  { type := type, l := -10, r := 10, h := 3, x := 0, y := 0, rotation := 0, zoomFactor := 1,
    description := "data", coupled := coupled, intVar := intVar, intVarOffset := 5 }

/-- A variable item at the origin at zoom 1 with the given rotation (degrees)
and half-extents, over any field. -/
def rotatedRV (K : Type) [LinearOrderedField K] (rotation w h : K) : RenderVariable K :=
  { pango := Pango.init,
    var := { type := VariableType.flow, name := "x", value := 0, x := 0, y := 0,
             rotation := rotation, zoomFactor := 1, sliderMin := 0, sliderMax := 1,
             ports := [⟨0, 0⟩, ⟨0, 0⟩] },
    w := w, h := h, hoffs := 0 }

/-- An item model for tests whose `engExp` always raises the given
exception. -/
def failingModel (e : Exn) : ItemModel ℚ :=
  { sampleModel with engExp := fun _ => .error e }

/-! ## Measuring the winding of a polygon -/

/-- The shoelace sum of a vertex sequence closed back to `first`: the sum of
`a.x * b.y - b.x * a.y` over consecutive vertices `a`, `b`. -/
def shoelaceFrom {K : Type} [LinearOrderedField K] (first : Point K) : List (Point K) → K
  | [] => 0
  | [a] => a.x * first.y - first.x * a.y
  | a :: b :: rest => (a.x * b.y - b.x * a.y) + shoelaceFrom first (b :: rest)

/-- The signed (shoelace) area of the closed polygon with the given vertex
sequence; its sign is the winding direction.  It is used to state properties
of `geom`, the code does not compute it. -/
def signedArea {K : Type} [LinearOrderedField K] (p : Polygon K) : K :=
  match p with
  | [] => 0
  | v :: vs => shoelaceFrom v (v :: vs) / 2

/-- A `RenderOperation` for tests with the given computed width and height. -/
def sampleRO (op : OperationBase ℚ) (w h : ℚ) : RenderOperation ℚ :=
  { op := op, w := w, h := h, hoffs := 0 }

/-- An item model for tests whose `engExp` returns exponent 0 and whose
`mantissa` raises `error`, while `expMultiplier` returns. -/
def mantissaFailingModel : ItemModel ℚ :=
  { sampleModel with
    engExp := fun _ => .ok { sciExp := 0, engExp := 0 }
    mantissa := fun _ _ => .error (Exn.error "no mantissa") }

/-- An item model over any field whose slider mutators keep bounds that contain
the value and widen them to the value otherwise; its formatting methods raise
`error`. -/
def sliderModel (K : Type) [LinearOrderedField K] : ItemModel K where
  engExp _ := .error (Exn.error "no value")
  mantissa _ _ := .error (Exn.error "no value")
  expMultiplier _ := .error (Exn.error "no value")
  initSliderBounds var := var
  adjustSliderBounds var :=
    { var with sliderMin := min var.sliderMin var.value, sliderMax := max var.sliderMax var.value }

/-- A variable item with the given half-width, slider bounds and value, at the
origin, unrotated, at zoom 1. -/
def sliderRV (K : Type) [LinearOrderedField K] (w lo hi v : K) : RenderVariable K :=
  { pango := Pango.init,
    var := { type := VariableType.flow, name := "x", value := v, x := 0, y := 0,
             rotation := 0, zoomFactor := 1, sliderMin := lo, sliderMax := hi,
             ports := [⟨0, 0⟩, ⟨0, 0⟩] },
    w := w, h := 0, hoffs := 0 }

/-! ## Theorems -/

section
variable {K : Type} [LinearOrderedField K]

/-- The tangent half-angle instance satisfies the laws. -/
theorem ratTrig_lawful : ratTrig.Lawful := by
  refine ⟨fun t => ?_, by simp [ratTrig], by simp [ratTrig]⟩
  have h : (1 + t * t : ℚ) ≠ 0 := by nlinarith [mul_self_nonneg t]
  simp only [ratTrig]
  field_simp
  ring

/-- The real cosine and sine satisfy the laws. -/
theorem realTrig_lawful : Trig.Lawful (⟨Real.cos, Real.sin, Real.pi⟩ : Trig ℝ) := by
  refine ⟨fun t => ?_, Real.cos_zero, Real.sin_zero⟩
  have h := Real.cos_sq_add_sin_sq t
  simp only [] at h ⊢
  nlinarith [h]

/-- The label of a constant when `engExp`, `mantissa` and `expMultiplier` all
return. -/
theorem constantLabel_ok {K : Type} (I : ItemModel K) (var : VariableBase K)
    (val : EngNotation) (m e : String) (h1 : I.engExp var = .ok val)
    (h2 : I.mantissa var (if val.engExp = -3 then { val with engExp := 0 } else val) = .ok m)
    (h3 : I.expMultiplier (if val.engExp = -3 then { val with engExp := 0 } else val).engExp
      = .ok e) :
    RenderVariable.constantLabel I var = .ok (m ++ e) := by
  simp only [RenderVariable.constantLabel, h1, h2, h3, bind, Except.bind, pure, Except.pure]

/-- The constructor on a constant whose label is formatted without an
exception. -/
theorem ctor_constant_ok (M : TextMetrics K) (I : ItemModel K) (var : VariableBase K)
    (s : String) (ht : var.type = VariableType.constant)
    (hs : RenderVariable.constantLabel I var = .ok s) :
    RenderVariable.ctor M I var = .ok
      { pango := { fontSize := 12, markup := s }, var := var,
        w := 0.5 * (M.measure 12 s).width, h := 0.5 * (M.measure 12 s).height,
        hoffs := (M.measure 12 s).top } := by
  simp only [RenderVariable.ctor, ht, hs, if_true, bind, Except.bind, pure, Except.pure,
    tryCatchError, Pango.init, Pango.setFontSize, Pango.setMarkup, Pango.width, Pango.height,
    Pango.top]

/-- The constructor on a constant whose formatting raises `error`. -/
theorem ctor_constant_error (M : TextMetrics K) (I : ItemModel K) (var : VariableBase K)
    (what : String) (ht : var.type = VariableType.constant)
    (hs : RenderVariable.constantLabel I var = .error (Exn.error what)) :
    RenderVariable.ctor M I var = .ok
      { pango := { fontSize := 12, markup := "0" }, var := var,
        w := 0.5 * (M.measure 12 "0").width, h := 0.5 * (M.measure 12 "0").height,
        hoffs := (M.measure 12 "0").top } := by
  simp only [RenderVariable.ctor, ht, hs, if_true, bind, Except.bind, pure, Except.pure,
    tryCatchError, Pango.init, Pango.setFontSize, Pango.setMarkup, Pango.width, Pango.height,
    Pango.top]

/-- The constructor on a constant whose formatting raises an exception that is
not an `error`. -/
theorem ctor_constant_other (M : TextMetrics K) (I : ItemModel K) (var : VariableBase K)
    (what : String) (ht : var.type = VariableType.constant)
    (hs : RenderVariable.constantLabel I var = .error (Exn.other what)) :
    RenderVariable.ctor M I var = .error (Exn.other what) := by
  simp only [RenderVariable.ctor, ht, hs, if_true, bind, Except.bind, pure, Except.pure,
    tryCatchError, Pango.init, Pango.setFontSize, Pango.setMarkup, Pango.width, Pango.height,
    Pango.top]

/-- The constructor on a variable that is not a constant. -/
theorem ctor_named (M : TextMetrics K) (I : ItemModel K) (var : VariableBase K)
    (ht : var.type ≠ VariableType.constant) :
    RenderVariable.ctor M I var = .ok
      { pango := { fontSize := 12, markup := M.latexToPango var.name }, var := var,
        w := 0.5 * (M.measure 12 (M.latexToPango var.name)).width + 12,
        h := 0.5 * (M.measure 12 (M.latexToPango var.name)).height + 4,
        hoffs := (M.measure 12 (M.latexToPango var.name)).top } := by
  simp only [RenderVariable.ctor, ht, if_false, bind, Except.bind, pure, Except.pure,
    Pango.init, Pango.setFontSize, Pango.setMarkup, Pango.width, Pango.height,
    Pango.top]

/-- The sample model formats the constant 1/20 as "0.05". -/
theorem sample_label_small :
    RenderVariable.constantLabel sampleModel (sampleVar VariableType.constant (1/20) 0 1)
      = .ok "0.05" :=
  constantLabel_ok sampleModel _ { sciExp := -2, engExp := -3 } "0.05" ""
    (by norm_num [sampleModel, sampleVar]) (by simp [sampleModel]) (by simp [sampleModel])

/-- C1: with half-width `w` and, after `initSliderBounds` and
`adjustSliderBounds`, value `v` and bounds `sliderMin ≠ sliderMax`,
`handlePos` returns `w * (v - 0.5 * (sliderMin + sliderMax)) / (sliderMax - sliderMin)`;
with bounds 0 and 10 and `w = 5` that is -2.5 at 0, 0 at 5 and 2.5 at 10. -/
theorem handlePos_eq (I : ItemModel K) (rv : RenderVariable K) (w v sliderMin sliderMax : K)
    (hw : rv.w = w)
    (hv : (I.adjustSliderBounds (I.initSliderBounds rv.var)).value = v)
    (hmin : (I.adjustSliderBounds (I.initSliderBounds rv.var)).sliderMin = sliderMin)
    (hmax : (I.adjustSliderBounds (I.initSliderBounds rv.var)).sliderMax = sliderMax)
    (_hne : sliderMin ≠ sliderMax) :
    rv.handlePos I = w * (v - 0.5 * (sliderMin + sliderMax)) / (sliderMax - sliderMin) ∧
    (sliderMin = 0 → sliderMax = 10 → w = 5 →
      (v = 0 → rv.handlePos I = -2.5) ∧ (v = 5 → rv.handlePos I = 0) ∧
      (v = 10 → rv.handlePos I = 2.5)) := by
  have key : rv.handlePos I
      = w * (v - 0.5 * (sliderMin + sliderMax)) / (sliderMax - sliderMin) := by
    simp only [RenderVariable.handlePos, hw, hv, hmin, hmax]
  refine ⟨key, ?_⟩
  intro h0 h10 h5
  rw [key, h0, h10, h5]
  refine ⟨fun h => ?_, fun h => ?_, fun h => ?_⟩ <;> rw [h] <;> norm_num

/-- C1 at a concrete variable: bounds 0 and 10, half-width 5, value 0. -/
theorem handlePos_eq_witness :
    (sampleRV (sampleVar VariableType.flow 0 0 10) 5 2).handlePos sampleModel = -2.5 :=
  ((handlePos_eq sampleModel (sampleRV (sampleVar VariableType.flow 0 0 10) 5 2) 5 0 0 10
      rfl rfl (by decide) (by decide) (by norm_num)).2 rfl rfl rfl).1 rfl

/-- C2: `inImage` accepts the item's own position at every rotation when the
half-extents are non-negative; an unrotated variable of half-width 10 and
half-height 5 at the origin rejects (20, 0) and accepts (5, 0). -/
theorem inImage_own_position (T : Trig K) (hT : T.Lawful) (rv : RenderVariable K)
    (hw : 0 ≤ rv.w) (hh : 0 ≤ rv.h) :
    rv.inImage T rv.var.x rv.var.y = true ∧
    (rv.var.rotation = 0 → rv.var.x = 0 → rv.var.y = 0 → rv.w = 10 → rv.h = 5 →
      rv.inImage T 20 0 = false ∧ rv.inImage T 5 0 = true) := by
  constructor
  · simp [RenderVariable.inImage, hw, hh]
  · intro hr hx hy hw10 hh5
    simp only [RenderVariable.inImage, hr, hx, hy, hw10, hh5, zero_mul, zero_div, sub_zero,
      hT.cos_zero, hT.sin_zero, mul_one, mul_zero, add_zero]
    constructor
    · have : ¬ ((20 : K) ≤ 10) := by norm_num
      simp [this]
    · have h1 : (-10 : K) ≤ 5 := by norm_num
      have h2 : (5 : K) ≤ 10 := by norm_num
      have h3 : (-5 : K) ≤ 0 := by norm_num
      have h4 : (0 : K) ≤ 5 := by norm_num
      simp [h1, h2, h3, h4]

/-- C2 at a concrete variable: half-width 10, half-height 5, unrotated, at the
origin. -/
theorem inImage_own_position_witness :
    (sampleRV (sampleVar VariableType.flow 0 0 10) 10 5).inImage ratTrig 0 0 = true ∧
    (sampleRV (sampleVar VariableType.flow 0 0 10) 10 5).inImage ratTrig 20 0 = false ∧
    (sampleRV (sampleVar VariableType.flow 0 0 10) 10 5).inImage ratTrig 5 0 = true :=
  have h := inImage_own_position ratTrig ratTrig_lawful
    (sampleRV (sampleVar VariableType.flow 0 0 10) 10 5) (by decide) (by decide)
  ⟨h.1, h.2 rfl rfl rfl rfl rfl⟩

/-- C4: `updatePortLocs` moves port 0 to `(x + z*w*cos t, y + z*w*sin t)` and
port 1 to `(x + z*(-w+2)*cos t, y + z*(-w+2)*sin t)`, where `t` is the rotation
in radians, and leaves every other port and every other field as it was. -/
theorem updatePortLocs_eq (T : Trig K) (rv : RenderVariable K) (p0 p1 : Port K)
    (rest : List (Port K)) (hports : rv.var.ports = p0 :: p1 :: rest) :
    rv.updatePortLocs T = some { rv.var with
      ports :=
        { x := rv.var.x + rv.var.zoomFactor * rv.w * T.cos (rv.var.rotation * T.pi / 180),
          y := rv.var.y + rv.var.zoomFactor * rv.w * T.sin (rv.var.rotation * T.pi / 180) } ::
        { x := rv.var.x + rv.var.zoomFactor * (-rv.w + 2) * T.cos (rv.var.rotation * T.pi / 180),
          y := rv.var.y + rv.var.zoomFactor * (-rv.w + 2) * T.sin (rv.var.rotation * T.pi / 180) } ::
        rest } := by
  simp only [RenderVariable.updatePortLocs, hports, Port.moveTo, zero_mul, sub_zero, zero_add,
    mul_assoc]

/-- C4 at a concrete variable: half-width 10 at the origin, unrotated, zoom 1. -/
theorem updatePortLocs_eq_witness :
    (sampleRV (sampleVar VariableType.flow 0 0 10) 10 5).updatePortLocs ratTrig
      = some { sampleVar VariableType.flow 0 0 10 with ports := [⟨10, 0⟩, ⟨-8, 0⟩] } :=
  (updatePortLocs_eq ratTrig (sampleRV (sampleVar VariableType.flow 0 0 10) 10 5)
    ⟨0, 0⟩ ⟨0, 0⟩ [] rfl).trans (by norm_num [sampleRV, sampleVar, ratTrig])

/-- C5: for a coupled integration operation whose embedded variable renders
with half-width `wv` and half-height `hv`, the constructor yields
`w = 0.5*(r - l) + intVarOffset + wv` and `h = max h hv` (23 for base width 10,
offset 5 and `wv = 8`); for an uncoupled integration operation and for every
kind of the default branch it yields `w = 0.5*(r - l)` and `h = op.h`. -/
theorem RenderOperation_ctor_integrate (M : TextMetrics K) (I : ItemModel K)
    (op : OperationBase K) :
    (op.type = OperationType.integrate → op.coupled = true →
      ∀ rv : RenderVariable K, RenderVariable.ctor M I op.intVar = .ok rv →
        ∃ ro, RenderOperation.ctor M I op = .ok ro ∧
          ro.width = 0.5 * (op.r - op.l) + op.intVarOffset + rv.width ∧
          ro.height = max op.h rv.height ∧
          (0.5 * (op.r - op.l) = 10 → op.intVarOffset = 5 → rv.width = 8 → ro.width = 23)) ∧
    ((op.type = OperationType.integrate ∧ op.coupled = false) ∨ op.type = OperationType.other →
      ∃ ro, RenderOperation.ctor M I op = .ok ro ∧
        ro.width = 0.5 * (op.r - op.l) ∧ ro.height = op.h) := by
  constructor
  · intro ht hc rv hrv
    refine ⟨{ op := op, w := 0.5 * (-op.l + op.r) + (op.intVarOffset + rv.width),
              h := max op.h rv.height, hoffs := 0 }, ?_, ?_, rfl, ?_⟩
    · simp only [RenderOperation.ctor, ht, hc, hrv]
      rfl
    · simp only [RenderOperation.width]
      ring
    · intro hb ho hwv
      simp only [RenderOperation.width]
      have : (0.5 : K) * (-op.l + op.r) = 10 := by rw [← hb]; ring
      rw [this, ho, hwv]
      norm_num
  · rintro (⟨ht, hc⟩ | ht)
    · refine ⟨{ op := op, w := 0.5 * (-op.l + op.r), h := op.h, hoffs := 0 }, ?_, ?_, rfl⟩
      · simp only [RenderOperation.ctor, ht, hc]
        rfl
      · simp only [RenderOperation.width]
        ring
    · refine ⟨{ op := op, w := 0.5 * (-op.l + op.r), h := op.h, hoffs := 0 }, ?_, ?_, rfl⟩
      · simp only [RenderOperation.ctor, ht]
        rfl
      · simp only [RenderOperation.width]
        ring

/-- C5 at a concrete operation: base width 10, embed offset 5 and an embedded
constant whose label "0.05" renders 16 wide, so of half-width 8: total 23. -/
theorem RenderOperation_ctor_integrate_witness :
    ∃ ro, RenderOperation.ctor sampleMetrics sampleModel
        (sampleOp OperationType.integrate true (sampleVar VariableType.constant (1/20) 0 1))
          = .ok ro ∧ ro.width = 23 := by
  obtain ⟨ro, h1, _, _, h4⟩ :=
    (RenderOperation_ctor_integrate sampleMetrics sampleModel
      (sampleOp OperationType.integrate true (sampleVar VariableType.constant (1/20) 0 1))).1
      rfl rfl
      { pango := { fontSize := 12, markup := "0.05" },
        var := sampleVar VariableType.constant (1/20) 0 1, w := 8, h := 6, hoffs := 1 }
      ((ctor_constant_ok sampleMetrics sampleModel _ "0.05" rfl sample_label_small).trans
        (by norm_num [sampleMetrics, sampleVar, show "0.05".length = 4 from rfl]))
  exact ⟨ro, h1, h4 (by norm_num [sampleOp]) rfl rfl⟩

/-- C3 (the code at a failing input): a variable of half-width 10 and
half-height 5 at the origin, zoom 1, rotated by 45 degrees.  `updatePortLocs`
puts the output-side port at `(10 cos 45°, 10 sin 45°)`, the image of the local
point (10, 0), and `inImage` rejects that position: it rotates the offset
forward once more, to (0, 10), instead of back to (10, 0). -/
theorem inImage_rejects_port_at_45 :
    ∃ var p0 p1,
      (rotatedRV ℝ 45 10 5).updatePortLocs ⟨Real.cos, Real.sin, Real.pi⟩ = some var ∧
      var.ports = [p0, p1] ∧
      p0 = ⟨10 * Real.cos (Real.pi / 4), 10 * Real.sin (Real.pi / 4)⟩ ∧
      (rotatedRV ℝ 45 10 5).inImage ⟨Real.cos, Real.sin, Real.pi⟩ p0.x p0.y = false := by
  have hang : (45 : ℝ) * Real.pi / 180 = Real.pi / 4 := by ring
  have hs2 : Real.sqrt 2 * Real.sqrt 2 = 2 := Real.mul_self_sqrt (by norm_num)
  refine ⟨_, _, _, rfl, rfl, ?_, ?_⟩
  · simp only [rotatedRV, hang, Port.moveTo, Port.mk.injEq]
    constructor <;> ring
  · simp only [rotatedRV, RenderVariable.inImage, Port.moveTo, hang, Real.cos_pi_div_four,
      Real.sin_pi_div_four]
    simp only [Bool.and_eq_false_iff, decide_eq_false_iff_not, not_le]
    right
    nlinarith [hs2]

/-- C10: subtracting the item position from each vertex of `geom` (before
`correct`), applying the inverse rotation and dividing by the zoom recovers the
corners (-w,-h), (-w,+h), (+w,+h), (+w,-h), in that order. -/
theorem geomVertices_unrotate (T : Trig K) (hT : T.Lawful) (rv : RenderVariable K)
    (hz : 0 < rv.var.zoomFactor) :
    (rv.geomVertices T).map (fun p =>
        ({ x := (T.cos (rv.var.rotation * T.pi / 180) * (p.x - rv.var.x)
                  + T.sin (rv.var.rotation * T.pi / 180) * (p.y - rv.var.y)) / rv.var.zoomFactor,
           y := (T.cos (rv.var.rotation * T.pi / 180) * (p.y - rv.var.y)
                  - T.sin (rv.var.rotation * T.pi / 180) * (p.x - rv.var.x)) / rv.var.zoomFactor }
          : Point K))
      = [⟨-rv.w, -rv.h⟩, ⟨-rv.w, rv.h⟩, ⟨rv.w, rv.h⟩, ⟨rv.w, -rv.h⟩] := by
  have hcs := hT.cos_sq_add_sin_sq (rv.var.rotation * T.pi / 180)
  have hz0 : rv.var.zoomFactor ≠ 0 := ne_of_gt hz
  simp only [RenderVariable.geomVertices, Rotate.ctor, Rotate.apply, List.map_cons,
    List.map_nil, List.cons.injEq, Point.mk.injEq, and_true]
  refine ⟨⟨?_, ?_⟩, ⟨?_, ?_⟩, ⟨?_, ?_⟩, ⟨?_, ?_⟩⟩
  · rw [div_eq_iff hz0]
    linear_combination (-rv.w * rv.var.zoomFactor) * hcs
  · rw [div_eq_iff hz0]
    linear_combination (-rv.h * rv.var.zoomFactor) * hcs
  · rw [div_eq_iff hz0]
    linear_combination (-rv.w * rv.var.zoomFactor) * hcs
  · rw [div_eq_iff hz0]
    linear_combination (rv.h * rv.var.zoomFactor) * hcs
  · rw [div_eq_iff hz0]
    linear_combination (rv.w * rv.var.zoomFactor) * hcs
  · rw [div_eq_iff hz0]
    linear_combination (rv.h * rv.var.zoomFactor) * hcs
  · rw [div_eq_iff hz0]
    linear_combination (rv.w * rv.var.zoomFactor) * hcs
  · rw [div_eq_iff hz0]
    linear_combination (-rv.h * rv.var.zoomFactor) * hcs

/-- C10 at a concrete variable: half-extents 10 and 5, zoom 1, on the real
numbers, rotated by 30 degrees. -/
theorem geomVertices_unrotate_witness :
    ((rotatedRV ℝ 30 10 5).geomVertices ⟨Real.cos, Real.sin, Real.pi⟩).map (fun p =>
        ({ x := (Real.cos (30 * Real.pi / 180) * (p.x - 0)
                  + Real.sin (30 * Real.pi / 180) * (p.y - 0)) / 1,
           y := (Real.cos (30 * Real.pi / 180) * (p.y - 0)
                  - Real.sin (30 * Real.pi / 180) * (p.x - 0)) / 1 } : Point ℝ))
      = [⟨-10, -5⟩, ⟨-10, 5⟩, ⟨10, 5⟩, ⟨10, -5⟩] :=
  geomVertices_unrotate ⟨Real.cos, Real.sin, Real.pi⟩ realTrig_lawful (rotatedRV ℝ 30 10 5)
    (by simp [rotatedRV])

/-- C6 (as stated, refuted): the sample constant 1/20 has the label "0.05",
16 wide and 12 high at size 12; the constructor yields half-width 8 and
half-height 6, not `0.5*16 + 2` and `0.5*12 + 4`. -/
theorem ctor_constant_padding_counterexample :
    ∃ rv, RenderVariable.ctor sampleMetrics sampleModel
        (sampleVar VariableType.constant (1/20) 0 1) = .ok rv ∧
      rv.pango.markup = "0.05" ∧ rv.w = 8 ∧ rv.h = 6 ∧
      ¬ (rv.w = 0.5 * (sampleMetrics.measure 12 rv.pango.markup).width + 2 ∧
         rv.h = 0.5 * (sampleMetrics.measure 12 rv.pango.markup).height + 4 ∧
         rv.hoffs = (sampleMetrics.measure 12 rv.pango.markup).top) := by
  refine ⟨_, ctor_constant_ok sampleMetrics sampleModel _ "0.05" rfl sample_label_small,
    rfl, ?_, ?_, ?_⟩ <;>
  norm_num [sampleMetrics, show "0.05".length = 4 from rfl]

/-- C6 (amended): for a constant variable whose label `s` (the formatted value,
or "0" when formatting raised `error`) has metrics (W, H, T) at size 12, the
constructor yields half-width `0.5*W`, half-height `0.5*H` and vertical offset
`T`: a constant gets no padding. -/
theorem ctor_constant_geometry (M : TextMetrics K) (I : ItemModel K) (var : VariableBase K)
    (s : String) (ht : var.type = VariableType.constant)
    (hs : RenderVariable.constantLabel I var = .ok s ∨
      ((∃ what, RenderVariable.constantLabel I var = .error (Exn.error what)) ∧ s = "0")) :
    ∃ rv, RenderVariable.ctor M I var = .ok rv ∧
      rv.pango.markup = s ∧ rv.pango.fontSize = 12 ∧
      rv.w = 0.5 * (M.measure 12 s).width ∧
      rv.h = 0.5 * (M.measure 12 s).height ∧
      rv.hoffs = (M.measure 12 s).top := by
  rcases hs with hs | ⟨⟨what, hs⟩, rfl⟩
  · exact ⟨_, ctor_constant_ok M I var s ht hs, rfl, rfl, rfl, rfl, rfl⟩
  · exact ⟨_, ctor_constant_error M I var what ht hs, rfl, rfl, rfl, rfl, rfl⟩

/-- C6 (amended) at the sample constant 1/20: half-width 8, half-height 6. -/
theorem ctor_constant_geometry_witness :
    ∃ rv, RenderVariable.ctor sampleMetrics sampleModel
        (sampleVar VariableType.constant (1/20) 0 1) = .ok rv ∧
      rv.pango.markup = "0.05" ∧ rv.pango.fontSize = 12 ∧
      rv.w = 0.5 * (sampleMetrics.measure 12 "0.05").width ∧
      rv.h = 0.5 * (sampleMetrics.measure 12 "0.05").height ∧
      rv.hoffs = (sampleMetrics.measure 12 "0.05").top :=
  ctor_constant_geometry sampleMetrics sampleModel (sampleVar VariableType.constant (1/20) 0 1)
    "0.05" rfl (Or.inl sample_label_small)

/-- C7: a constant or data operation whose description has metrics (W, H, T)
at size 10 gets `w = 0.5*W + 2`, `h = 0.5*H + 4`, `hoffs = T`, whatever its raw
extents `l`, `r`, `h`; a variable that is not a constant and whose name has
metrics (W, H, T) at size 12 gets `w = 0.5*W + 12`, `h = 0.5*H + 4`,
`hoffs = T`. -/
theorem labelled_geometry (M : TextMetrics K) (I : ItemModel K) :
    (∀ op : OperationBase K, op.type = OperationType.constant ∨ op.type = OperationType.data →
      ∃ ro, RenderOperation.ctor M I op = .ok ro ∧
        ro.w = 0.5 * (M.measure 10 (M.latexToPango op.description)).width + 2 ∧
        ro.h = 0.5 * (M.measure 10 (M.latexToPango op.description)).height + 4 ∧
        ro.hoffs = (M.measure 10 (M.latexToPango op.description)).top ∧
        ∀ l r h : K, ∃ ro', RenderOperation.ctor M I { op with l := l, r := r, h := h } = .ok ro' ∧
          ro'.w = ro.w ∧ ro'.h = ro.h ∧ ro'.hoffs = ro.hoffs) ∧
    (∀ var : VariableBase K, var.type ≠ VariableType.constant →
      ∃ rv, RenderVariable.ctor M I var = .ok rv ∧
        rv.pango.fontSize = 12 ∧ rv.pango.markup = M.latexToPango var.name ∧
        rv.w = 0.5 * (M.measure 12 (M.latexToPango var.name)).width + 12 ∧
        rv.h = 0.5 * (M.measure 12 (M.latexToPango var.name)).height + 4 ∧
        rv.hoffs = (M.measure 12 (M.latexToPango var.name)).top) := by
  constructor
  · intro op ht
    have key : ∀ op' : OperationBase K,
        (op'.type = OperationType.constant ∨ op'.type = OperationType.data) →
        RenderOperation.ctor M I op' = .ok
          { op := op', w := 0.5 * (M.measure 10 (M.latexToPango op'.description)).width + 2,
            h := 0.5 * (M.measure 10 (M.latexToPango op'.description)).height + 4,
            hoffs := (M.measure 10 (M.latexToPango op'.description)).top } := by
      intro op' ht'
      rcases ht' with h | h <;>
      simp only [RenderOperation.ctor, h, Pango.init, Pango.setFontSize, Pango.setMarkup,
        Pango.width, Pango.height, Pango.top] <;> rfl
    refine ⟨_, key op ht, rfl, rfl, rfl, fun l r h => ?_⟩
    exact ⟨_, key { op with l := l, r := r, h := h } ht, rfl, rfl, rfl⟩
  · intro var ht
    exact ⟨_, ctor_named M I var ht, rfl, rfl, rfl, rfl, rfl⟩

/-- C7 at the sample data operation (description "data", 12 wide at size 10)
and the sample flow variable (name "x", 4 wide at size 12). -/
theorem labelled_geometry_witness :
    (∃ ro, RenderOperation.ctor sampleMetrics sampleModel
        (sampleOp OperationType.data false (sampleVar VariableType.flow 0 0 1)) = .ok ro ∧
      ro.w = 8 ∧ ro.h = 9 ∧ ro.hoffs = 1) ∧
    (∃ rv, RenderVariable.ctor sampleMetrics sampleModel (sampleVar VariableType.flow 0 0 1)
        = .ok rv ∧ rv.w = 14 ∧ rv.h = 10 ∧ rv.hoffs = 1) := by
  obtain ⟨ro, h1, h2, h3, h4, _⟩ := (labelled_geometry sampleMetrics sampleModel).1
    (sampleOp OperationType.data false (sampleVar VariableType.flow 0 0 1)) (Or.inr rfl)
  obtain ⟨rv, g1, _, _, g2, g3, g4⟩ := (labelled_geometry sampleMetrics sampleModel).2
    (sampleVar VariableType.flow 0 0 1) (by decide)
  refine ⟨⟨ro, h1, ?_, ?_, ?_⟩, ⟨rv, g1, ?_, ?_, ?_⟩⟩
  · rw [h2]; norm_num [sampleMetrics, sampleOp, show "data".length = 4 from rfl]
  · rw [h3]; norm_num [sampleMetrics, sampleOp]
  · rw [h4]; simp [sampleMetrics]
  · rw [g2]; norm_num [sampleMetrics, sampleVar, show "x".length = 1 from rfl]
  · rw [g3]; norm_num [sampleMetrics, sampleVar]
  · rw [g4]; simp [sampleMetrics]

/-- C8 (as stated, refuted): when `engExp` raises an exception that is not an
`error`, the `catch (error)` clause does not handle it and constructing the
`RenderVariable` fails with that exception. -/
theorem ctor_uncaught_counterexample :
    (failingModel (Exn.other "bad_alloc")).engExp (sampleVar VariableType.constant 5 0 10)
      = .error (Exn.other "bad_alloc") ∧
    RenderVariable.ctor sampleMetrics (failingModel (Exn.other "bad_alloc"))
      (sampleVar VariableType.constant 5 0 10) = .error (Exn.other "bad_alloc") :=
  ⟨rfl, ctor_constant_other sampleMetrics _ _ "bad_alloc" rfl rfl⟩

/-- C8 (amended): for a constant variable, if formatting fails with an
exception of class `error` (`engExp` raises one, or `engExp` returns and of
`mantissa` and `expMultiplier` at least one raises an `error` while neither
raises an exception of another class, so that the outcome does not depend on
the order of the two calls), constructing the `RenderVariable` succeeds, the
label is "0", and `w`, `h`, `hoffs` are `0.5*W`, `0.5*H`, `T` for the metrics of
"0" at size 12, the same as for any constant whose formatted label is "0". -/
theorem ctor_constant_fallback (M : TextMetrics K) (I : ItemModel K) (var : VariableBase K)
    (ht : var.type = VariableType.constant)
    (hraise : (∃ what, I.engExp var = .error (Exn.error what)) ∨
      ∃ val, I.engExp var = .ok val ∧
        ((∃ what, I.mantissa var (if val.engExp = -3 then { val with engExp := 0 } else val)
              = .error (Exn.error what)) ∨
         (∃ what,
            I.expMultiplier (if val.engExp = -3 then { val with engExp := 0 } else val).engExp
              = .error (Exn.error what))) ∧
        (∀ what, I.mantissa var (if val.engExp = -3 then { val with engExp := 0 } else val)
              ≠ .error (Exn.other what)) ∧
        (∀ what,
            I.expMultiplier (if val.engExp = -3 then { val with engExp := 0 } else val).engExp
              ≠ .error (Exn.other what))) :
    ∃ rv, RenderVariable.ctor M I var = .ok rv ∧
      rv.pango.markup = "0" ∧ rv.pango.fontSize = 12 ∧
      rv.w = 0.5 * (M.measure 12 "0").width ∧
      rv.h = 0.5 * (M.measure 12 "0").height ∧
      rv.hoffs = (M.measure 12 "0").top ∧
      ∀ (I' : ItemModel K) (var' : VariableBase K), var'.type = VariableType.constant →
        RenderVariable.constantLabel I' var' = .ok "0" →
        ∃ rv', RenderVariable.ctor M I' var' = .ok rv' ∧
          rv'.w = rv.w ∧ rv'.h = rv.h ∧ rv'.hoffs = rv.hoffs := by
  have hlabel : ∃ what, RenderVariable.constantLabel I var = .error (Exn.error what) := by
    rcases hraise with ⟨what, h⟩ | ⟨val, h1, hsome, hm_other, he_other⟩
    · exact ⟨what, by simp only [RenderVariable.constantLabel, h, bind, Except.bind]⟩
    · cases hm : I.mantissa var (if val.engExp = -3 then { val with engExp := 0 } else val) with
      | error em =>
        cases em with
        | other what => exact absurd hm (hm_other what)
        | error wm =>
          cases he : I.expMultiplier
              (if val.engExp = -3 then { val with engExp := 0 } else val).engExp with
          | error ee =>
            cases ee with
            | other what => exact absurd he (he_other what)
            | error we =>
              simp only [RenderVariable.constantLabel, h1, hm, he, bind, Except.bind]
              exact ⟨_, rfl⟩
          | ok e =>
            simp only [RenderVariable.constantLabel, h1, hm, he, bind, Except.bind]
            exact ⟨_, rfl⟩
      | ok m =>
        cases he : I.expMultiplier
            (if val.engExp = -3 then { val with engExp := 0 } else val).engExp with
        | error ee =>
          cases ee with
          | other what => exact absurd he (he_other what)
          | error we =>
            simp only [RenderVariable.constantLabel, h1, hm, he, bind, Except.bind]
            exact ⟨_, rfl⟩
        | ok e =>
          rcases hsome with ⟨what, h⟩ | ⟨what, h⟩
          · rw [hm] at h
            cases h
          · rw [he] at h
            cases h
  obtain ⟨what, hlabel⟩ := hlabel
  refine ⟨_, ctor_constant_error M I var what ht hlabel, rfl, rfl, rfl, rfl, rfl, ?_⟩
  intro I' var' ht' hs'
  exact ⟨_, ctor_constant_ok M I' var' "0" ht' hs', rfl, rfl, rfl⟩

/-- C8 (amended) at the sample constant 0, whose `engExp` raises `error`, and
at a model whose `mantissa` raises `error` while `expMultiplier` returns: in
both the label is "0", 4 wide and 12 high. -/
theorem ctor_constant_fallback_witness :
    (∃ rv, RenderVariable.ctor sampleMetrics sampleModel (sampleVar VariableType.constant 0 0 1)
        = .ok rv ∧ rv.pango.markup = "0" ∧ rv.w = 2 ∧ rv.h = 6 ∧ rv.hoffs = 1) ∧
    (∃ rv, RenderVariable.ctor sampleMetrics mantissaFailingModel
        (sampleVar VariableType.constant 5 0 10)
        = .ok rv ∧ rv.pango.markup = "0" ∧ rv.w = 2 ∧ rv.h = 6 ∧ rv.hoffs = 1) := by
  obtain ⟨rv, h1, h2, _, h3, h4, h5, _⟩ :=
    ctor_constant_fallback sampleMetrics sampleModel (sampleVar VariableType.constant 0 0 1)
      rfl (Or.inl ⟨"no value", by simp [sampleModel, sampleVar]⟩)
  obtain ⟨rv', g1, g2, _, g3, g4, g5, _⟩ :=
    ctor_constant_fallback sampleMetrics mantissaFailingModel
      (sampleVar VariableType.constant 5 0 10) rfl
      (Or.inr ⟨{ sciExp := 0, engExp := 0 }, rfl, Or.inl ⟨"no mantissa", rfl⟩,
        fun what h => by simp [mantissaFailingModel] at h,
        fun what h => by simp [mantissaFailingModel, sampleModel] at h⟩)
  refine ⟨⟨rv, h1, h2, ?_, ?_, ?_⟩, ⟨rv', g1, g2, ?_, ?_, ?_⟩⟩
  · rw [h3]; norm_num [sampleMetrics, show "0".length = 1 from rfl]
  · rw [h4]; norm_num [sampleMetrics]
  · rw [h5]; simp [sampleMetrics]
  · rw [g3]; norm_num [sampleMetrics, show "0".length = 1 from rfl]
  · rw [g4]; norm_num [sampleMetrics]
  · rw [g5]; simp [sampleMetrics]

/-- C9: for a constant whose `engExp()` has exponent -3, the exponent is set to
0 before `mantissa` and `expMultiplier` are called, so the label is that
mantissa followed by `expMultiplier(0)` (the mantissa alone where that text is
empty); for any other exponent `e` the label is `mantissa(val)` followed by
`expMultiplier(e)`. -/
theorem constant_label_exponent (M : TextMetrics K) (I : ItemModel K) (var : VariableBase K)
    (val : EngNotation) (ht : var.type = VariableType.constant)
    (hval : I.engExp var = .ok val) :
    (val.engExp = -3 → ∀ m e : String,
      I.mantissa var { val with engExp := 0 } = .ok m → I.expMultiplier 0 = .ok e →
      ∃ rv, RenderVariable.ctor M I var = .ok rv ∧ rv.pango.markup = m ++ e ∧
        (e = "" → rv.pango.markup = m)) ∧
    (val.engExp ≠ -3 → ∀ m e : String,
      I.mantissa var val = .ok m → I.expMultiplier val.engExp = .ok e →
      ∃ rv, RenderVariable.ctor M I var = .ok rv ∧ rv.pango.markup = m ++ e) := by
  constructor
  · intro h3 m e hm he
    have hl : RenderVariable.constantLabel I var = .ok (m ++ e) :=
      constantLabel_ok I var val m e hval (by rw [if_pos h3]; exact hm)
        (by rw [if_pos h3]; exact he)
    refine ⟨_, ctor_constant_ok M I var (m ++ e) ht hl, rfl, ?_⟩
    intro hempty
    subst hempty
    show m ++ "" = m
    exact String.append_empty m
  · intro h3 m e hm he
    have hl : RenderVariable.constantLabel I var = .ok (m ++ e) :=
      constantLabel_ok I var val m e hval (by rw [if_neg h3]; exact hm)
        (by rw [if_neg h3]; exact he)
    exact ⟨_, ctor_constant_ok M I var (m ++ e) ht hl, rfl⟩

/-- C9 at the sample constants: 1/20 has exponent -3 and is labelled "0.05",
without suffix; 5 has exponent 3 and is labelled "50e3". -/
theorem constant_label_exponent_witness :
    (∃ rv, RenderVariable.ctor sampleMetrics sampleModel
        (sampleVar VariableType.constant (1/20) 0 1) = .ok rv ∧ rv.pango.markup = "0.05") ∧
    (∃ rv, RenderVariable.ctor sampleMetrics sampleModel
        (sampleVar VariableType.constant 5 0 10) = .ok rv ∧ rv.pango.markup = "50e3") := by
  obtain ⟨rv, h1, _, h2⟩ :=
    (constant_label_exponent sampleMetrics sampleModel
      (sampleVar VariableType.constant (1/20) 0 1) { sciExp := -2, engExp := -3 } rfl
      (by norm_num [sampleModel, sampleVar])).1 rfl "0.05" ""
      (by simp [sampleModel]) (by simp [sampleModel])
  obtain ⟨rv', g1, g2⟩ :=
    (constant_label_exponent sampleMetrics sampleModel
      (sampleVar VariableType.constant 5 0 10) { sciExp := -2, engExp := 3 } rfl
      (by norm_num [sampleModel, sampleVar])).2 (by decide) "50" "e3"
      (by simp [sampleModel]) (by simp [sampleModel]; rfl)
  exact ⟨⟨rv, h1, h2 rfl⟩, ⟨rv', g1, g2⟩⟩

/-- The value `handlePos` returns, in terms of the variable as the slider
mutators leave it. -/
theorem handlePos_formula (I : ItemModel K) (rv : RenderVariable K) :
    rv.handlePos I
      = rv.w * ((I.adjustSliderBounds (I.initSliderBounds rv.var)).value
          - 0.5 * ((I.adjustSliderBounds (I.initSliderBounds rv.var)).sliderMin
              + (I.adjustSliderBounds (I.initSliderBounds rv.var)).sliderMax))
        / ((I.adjustSliderBounds (I.initSliderBounds rv.var)).sliderMax
            - (I.adjustSliderBounds (I.initSliderBounds rv.var)).sliderMin) := rfl

/-- The signed area of the vertex sequence of `RenderVariable::geom`. -/
theorem signedArea_variable (T : Trig K) (hT : T.Lawful) (rv : RenderVariable K) :
    signedArea (rv.geomVertices T)
      = -(4 * rv.w * rv.h * (rv.var.zoomFactor * rv.var.zoomFactor)) := by
  have hcs := hT.cos_sq_add_sin_sq (rv.var.rotation * T.pi / 180)
  simp only [signedArea, shoelaceFrom, RenderVariable.geomVertices, Rotate.ctor, Rotate.apply]
  linear_combination (-(4 * rv.w * rv.h * (rv.var.zoomFactor * rv.var.zoomFactor))) * hcs

/-- The signed area of the vertex sequence of `RenderOperation::geom`. -/
theorem signedArea_operation (T : Trig K) (hT : T.Lawful) (ro : RenderOperation K) :
    signedArea (ro.geomVertices T)
      = -((ro.op.r - ro.op.l) * ro.op.h * (ro.op.zoomFactor * ro.op.zoomFactor)) := by
  have hcs := hT.cos_sq_add_sin_sq (ro.op.rotation * T.pi / 180)
  simp only [signedArea, shoelaceFrom, RenderOperation.geomVertices, Rotate.ctor, Rotate.apply]
  linear_combination
    (-((ro.op.r - ro.op.l) * ro.op.h * (ro.op.zoomFactor * ro.op.zoomFactor))) * hcs

/-- C11: at every position, rotation and zoom `z > 0`, the signed area of the
vertex sequence of `RenderVariable::geom` (with `w > 0`, `h > 0`) and that of
`RenderOperation::geom` (with `l < r`, `h > 0`) are both non-zero and of the
same sign (both negative: `-4*w*h*z²` and `-(r-l)*h*z²`). -/
theorem geom_same_winding (T : Trig K) (hT : T.Lawful) (rv : RenderVariable K)
    (ro : RenderOperation K) (hw : 0 < rv.w) (hh : 0 < rv.h) (hz : 0 < rv.var.zoomFactor)
    (hlr : ro.op.l < ro.op.r) (hoh : 0 < ro.op.h) (hoz : 0 < ro.op.zoomFactor) :
    signedArea (rv.geomVertices T) ≠ 0 ∧ signedArea (ro.geomVertices T) ≠ 0 ∧
    0 < signedArea (rv.geomVertices T) * signedArea (ro.geomVertices T) ∧
    signedArea (rv.geomVertices T) < 0 ∧ signedArea (ro.geomVertices T) < 0 := by
  have hv : signedArea (rv.geomVertices T) < 0 := by
    rw [signedArea_variable T hT rv]
    have : 0 < 4 * rv.w * rv.h * (rv.var.zoomFactor * rv.var.zoomFactor) := by positivity
    linarith
  have ho : signedArea (ro.geomVertices T) < 0 := by
    rw [signedArea_operation T hT ro]
    have h1 : 0 < ro.op.r - ro.op.l := sub_pos.mpr hlr
    have : 0 < (ro.op.r - ro.op.l) * ro.op.h * (ro.op.zoomFactor * ro.op.zoomFactor) := by
      positivity
    linarith
  exact ⟨ne_of_lt hv, ne_of_lt ho, mul_pos_of_neg_of_neg hv ho, hv, ho⟩

/-- C11 at a concrete pair: a variable of half-extents 10 and 5 and the sample
operation (`l = -10`, `r = 10`, `h = 3`). -/
theorem geom_same_winding_witness :
    0 < signedArea ((sampleRV (sampleVar VariableType.flow 0 0 10) 10 5).geomVertices ratTrig)
      * signedArea ((sampleRO (sampleOp OperationType.other false
          (sampleVar VariableType.flow 0 0 10)) 10 3).geomVertices ratTrig) :=
  (geom_same_winding ratTrig ratTrig_lawful (sampleRV (sampleVar VariableType.flow 0 0 10) 10 5)
    (sampleRO (sampleOp OperationType.other false (sampleVar VariableType.flow 0 0 10)) 10 3)
    (by norm_num [sampleRV]) (by norm_num [sampleRV]) (by norm_num [sampleRV, sampleVar])
    (by norm_num [sampleRO, sampleOp]) (by norm_num [sampleRO, sampleOp])
    (by norm_num [sampleRO, sampleOp])).2.2.1

/-- C12: for both `RenderVariable::geom` and `RenderOperation::geom`, moving the
item by `(dx, dy)` moves every vertex by exactly `(dx, dy)`, and the offset of
each vertex from the item position at zoom `z` is `z` times its offset at
zoom 1; the operation's vertices are the local points `(l*z, -h*z)`,
`(l*z, h*z)`, `(r*z, 0)` rotated about the item position. -/
theorem geom_translate_scale (T : Trig K) (rv : RenderVariable K) (ro : RenderOperation K)
    (dx dy z : K) :
    RenderVariable.geomVertices T
        { rv with var := { rv.var with x := rv.var.x + dx, y := rv.var.y + dy } }
      = (rv.geomVertices T).map (fun p => ({ x := p.x + dx, y := p.y + dy } : Point K)) ∧
    RenderOperation.geomVertices T
        { ro with op := { ro.op with x := ro.op.x + dx, y := ro.op.y + dy } }
      = (ro.geomVertices T).map (fun p => ({ x := p.x + dx, y := p.y + dy } : Point K)) ∧
    (RenderVariable.geomVertices T { rv with var := { rv.var with zoomFactor := z } }).map
        (fun p => ({ x := p.x - rv.var.x, y := p.y - rv.var.y } : Point K))
      = (RenderVariable.geomVertices T { rv with var := { rv.var with zoomFactor := 1 } }).map
        (fun p => ({ x := z * (p.x - rv.var.x), y := z * (p.y - rv.var.y) } : Point K)) ∧
    (RenderOperation.geomVertices T { ro with op := { ro.op with zoomFactor := z } }).map
        (fun p => ({ x := p.x - ro.op.x, y := p.y - ro.op.y } : Point K))
      = (RenderOperation.geomVertices T { ro with op := { ro.op with zoomFactor := 1 } }).map
        (fun p => ({ x := z * (p.x - ro.op.x), y := z * (p.y - ro.op.y) } : Point K)) ∧
    ro.geomVertices T
      = [ { x := ro.op.x + (T.cos (ro.op.rotation * T.pi / 180) * (ro.op.l * ro.op.zoomFactor)
                    - T.sin (ro.op.rotation * T.pi / 180) * (-(ro.op.h * ro.op.zoomFactor))),
            y := ro.op.y + (T.sin (ro.op.rotation * T.pi / 180) * (ro.op.l * ro.op.zoomFactor)
                    + T.cos (ro.op.rotation * T.pi / 180) * (-(ro.op.h * ro.op.zoomFactor))) },
          { x := ro.op.x + (T.cos (ro.op.rotation * T.pi / 180) * (ro.op.l * ro.op.zoomFactor)
                    - T.sin (ro.op.rotation * T.pi / 180) * (ro.op.h * ro.op.zoomFactor)),
            y := ro.op.y + (T.sin (ro.op.rotation * T.pi / 180) * (ro.op.l * ro.op.zoomFactor)
                    + T.cos (ro.op.rotation * T.pi / 180) * (ro.op.h * ro.op.zoomFactor)) },
          { x := ro.op.x + (T.cos (ro.op.rotation * T.pi / 180) * (ro.op.r * ro.op.zoomFactor)
                    - T.sin (ro.op.rotation * T.pi / 180) * 0),
            y := ro.op.y + (T.sin (ro.op.rotation * T.pi / 180) * (ro.op.r * ro.op.zoomFactor)
                    + T.cos (ro.op.rotation * T.pi / 180) * 0) } ] := by
  refine ⟨?_, ?_, ?_, ?_, ?_⟩
  · simp only [RenderVariable.geomVertices, Rotate.ctor, Rotate.apply, List.map_cons,
      List.map_nil, List.cons.injEq, Point.mk.injEq, and_true]
    refine ⟨⟨?_, ?_⟩, ⟨?_, ?_⟩, ⟨?_, ?_⟩, ⟨?_, ?_⟩⟩ <;> ring
  · simp only [RenderOperation.geomVertices, Rotate.ctor, Rotate.apply, List.map_cons,
      List.map_nil, List.cons.injEq, Point.mk.injEq, and_true]
    refine ⟨⟨?_, ?_⟩, ⟨?_, ?_⟩, ⟨?_, ?_⟩⟩ <;> ring
  · simp only [RenderVariable.geomVertices, Rotate.ctor, Rotate.apply, List.map_cons,
      List.map_nil, List.cons.injEq, Point.mk.injEq, and_true]
    refine ⟨⟨?_, ?_⟩, ⟨?_, ?_⟩, ⟨?_, ?_⟩, ⟨?_, ?_⟩⟩ <;> ring
  · simp only [RenderOperation.geomVertices, Rotate.ctor, Rotate.apply, List.map_cons,
      List.map_nil, List.cons.injEq, Point.mk.injEq, and_true]
    refine ⟨⟨?_, ?_⟩, ⟨?_, ?_⟩, ⟨?_, ?_⟩⟩ <;> ring
  · simp only [RenderOperation.geomVertices, Rotate.ctor, Rotate.apply, List.cons.injEq,
      Point.mk.injEq, and_true]
    refine ⟨⟨?_, ?_⟩, ⟨?_, ?_⟩, ⟨?_, ?_⟩⟩ <;> ring

/-- The operation constructor on a constant or data operation. -/
theorem op_ctor_labelled (M : TextMetrics K) (I : ItemModel K) (op : OperationBase K)
    (ht : op.type = OperationType.constant ∨ op.type = OperationType.data) :
    RenderOperation.ctor M I op = .ok
      { op := op, w := 0.5 * (M.measure 10 (M.latexToPango op.description)).width + 2,
        h := 0.5 * (M.measure 10 (M.latexToPango op.description)).height + 4,
        hoffs := (M.measure 10 (M.latexToPango op.description)).top } := by
  rcases ht with h | h <;>
  simp only [RenderOperation.ctor, h, Pango.init, Pango.setFontSize, Pango.setMarkup,
    Pango.width, Pango.height, Pango.top] <;> rfl

/-- The operation constructor on the default branch and on an uncoupled
integration operation. -/
theorem op_ctor_plain (M : TextMetrics K) (I : ItemModel K) (op : OperationBase K)
    (ht : op.type = OperationType.other ∨
      (op.type = OperationType.integrate ∧ op.coupled = false)) :
    RenderOperation.ctor M I op = .ok
      { op := op, w := 0.5 * (-op.l + op.r), h := op.h, hoffs := 0 } := by
  rcases ht with h | ⟨h, hc⟩
  · simp only [RenderOperation.ctor, h]
    rfl
  · simp only [RenderOperation.ctor, h, hc]
    rfl

/-- The operation constructor on a coupled integration operation, in terms of
the result of constructing the embedded variable's `RenderVariable`. -/
theorem op_ctor_coupled (M : TextMetrics K) (I : ItemModel K) (op : OperationBase K)
    (ht : op.type = OperationType.integrate) (hc : op.coupled = true) :
    RenderOperation.ctor M I op =
      match RenderVariable.ctor M I op.intVar with
      | .ok rv => .ok { op := op, w := 0.5 * (-op.l + op.r) + (op.intVarOffset + rv.width),
                        h := max op.h rv.height, hoffs := 0 }
      | .error e => .error e := by
  simp only [RenderOperation.ctor, ht, hc]
  cases RenderVariable.ctor M I op.intVar <;> rfl

/-- The operation a `RenderOperation` refers to is the one it was built from. -/
theorem op_ctor_op (M : TextMetrics K) (I : ItemModel K) (op : OperationBase K)
    (ro : RenderOperation K) (h : RenderOperation.ctor M I op = .ok ro) : ro.op = op := by
  cases ht : op.type
  · rw [op_ctor_labelled M I op (Or.inl ht)] at h
    cases h
    rfl
  · rw [op_ctor_labelled M I op (Or.inr ht)] at h
    cases h
    rfl
  · cases hc : op.coupled
    · rw [op_ctor_plain M I op (Or.inr ⟨ht, hc⟩)] at h
      cases h
      rfl
    · rw [op_ctor_coupled M I op ht hc] at h
      cases hrv : RenderVariable.ctor M I op.intVar with
      | error e => rw [hrv] at h; cases h
      | ok rv => rw [hrv] at h; cases h; rfl
  · rw [op_ctor_plain M I op (Or.inl ht)] at h
    cases h
    rfl

/-- C14: with `w ≥ 0`, bounds `sliderMin < sliderMax` and a value between the
bounds (all as the slider mutators leave them), `handlePos` lies in
`[-w, +w]`. -/
theorem handlePos_within (I : ItemModel K) (rv : RenderVariable K) (hw : 0 ≤ rv.w)
    (hb : (I.adjustSliderBounds (I.initSliderBounds rv.var)).sliderMin
        < (I.adjustSliderBounds (I.initSliderBounds rv.var)).sliderMax)
    (hlo : (I.adjustSliderBounds (I.initSliderBounds rv.var)).sliderMin
        ≤ (I.adjustSliderBounds (I.initSliderBounds rv.var)).value)
    (hhi : (I.adjustSliderBounds (I.initSliderBounds rv.var)).value
        ≤ (I.adjustSliderBounds (I.initSliderBounds rv.var)).sliderMax) :
    -rv.w ≤ rv.handlePos I ∧ rv.handlePos I ≤ rv.w := by
  rw [handlePos_formula]
  generalize (I.adjustSliderBounds (I.initSliderBounds rv.var)).value = v at *
  generalize (I.adjustSliderBounds (I.initSliderBounds rv.var)).sliderMin = lo at *
  generalize (I.adjustSliderBounds (I.initSliderBounds rv.var)).sliderMax = hi at *
  have hd : 0 < hi - lo := sub_pos.mpr hb
  have h1 : 0 ≤ rv.w * (v - lo) := mul_nonneg hw (sub_nonneg.mpr hlo)
  have h2 : 0 ≤ rv.w * (hi - v) := mul_nonneg hw (sub_nonneg.mpr hhi)
  have h3 : 0 ≤ rv.w * (hi - lo) := mul_nonneg hw hd.le
  constructor
  · rw [le_div_iff₀ hd]
    norm_num
    linarith
  · rw [div_le_iff₀ hd]
    norm_num
    linarith

/-- C14 at a concrete variable: bounds 0 and 10, half-width 5, value 10. -/
theorem handlePos_within_witness :
    -5 ≤ (sampleRV (sampleVar VariableType.flow 10 0 10) 5 2).handlePos sampleModel ∧
    (sampleRV (sampleVar VariableType.flow 10 0 10) 5 2).handlePos sampleModel ≤ 5 :=
  handlePos_within sampleModel (sampleRV (sampleVar VariableType.flow 10 0 10) 5 2)
    (by norm_num [sampleRV]) (by norm_num [sampleRV, sampleVar, sampleModel])
    (by norm_num [sampleRV, sampleVar, sampleModel])
    (by norm_num [sampleRV, sampleVar, sampleModel])

/-- C15: for a fixed half-width `w > 0` and fixed bounds `sliderMin < sliderMax`
(as the slider mutators leave them), `handlePos` is strictly increasing in the
value, and at the mean of two values it is the mean of their handle
positions. -/
theorem handlePos_affine_increasing (I : ItemModel K) (rv1 rv2 rv3 : RenderVariable K)
    (w lo hi : K) (hw : 0 < w) (hb : lo < hi)
    (h1 : rv1.w = w ∧ (I.adjustSliderBounds (I.initSliderBounds rv1.var)).sliderMin = lo ∧
      (I.adjustSliderBounds (I.initSliderBounds rv1.var)).sliderMax = hi)
    (h2 : rv2.w = w ∧ (I.adjustSliderBounds (I.initSliderBounds rv2.var)).sliderMin = lo ∧
      (I.adjustSliderBounds (I.initSliderBounds rv2.var)).sliderMax = hi)
    (h3 : rv3.w = w ∧ (I.adjustSliderBounds (I.initSliderBounds rv3.var)).sliderMin = lo ∧
      (I.adjustSliderBounds (I.initSliderBounds rv3.var)).sliderMax = hi)
    (hlt : (I.adjustSliderBounds (I.initSliderBounds rv1.var)).value
      < (I.adjustSliderBounds (I.initSliderBounds rv2.var)).value)
    (hmid : (I.adjustSliderBounds (I.initSliderBounds rv3.var)).value
      = ((I.adjustSliderBounds (I.initSliderBounds rv1.var)).value
          + (I.adjustSliderBounds (I.initSliderBounds rv2.var)).value) / 2) :
    rv1.handlePos I < rv2.handlePos I ∧
    rv3.handlePos I = (rv1.handlePos I + rv2.handlePos I) / 2 := by
  rw [handlePos_formula I rv1, handlePos_formula I rv2, handlePos_formula I rv3,
    h1.1, h1.2.1, h1.2.2, h2.1, h2.2.1, h2.2.2, h3.1, h3.2.1, h3.2.2, hmid]
  generalize (I.adjustSliderBounds (I.initSliderBounds rv1.var)).value = v1 at *
  generalize (I.adjustSliderBounds (I.initSliderBounds rv2.var)).value = v2 at *
  have hd : 0 < hi - lo := sub_pos.mpr hb
  constructor
  · apply div_lt_div_of_pos_right _ hd
    apply mul_lt_mul_of_pos_left _ hw
    linarith
  · field_simp
    ring

/-- C15 at concrete variables: half-width 5, bounds 0 and 10, values 2, 6 and
their mean 4. -/
theorem handlePos_affine_increasing_witness :
    (sampleRV (sampleVar VariableType.flow 2 0 10) 5 2).handlePos sampleModel
      < (sampleRV (sampleVar VariableType.flow 6 0 10) 5 2).handlePos sampleModel ∧
    (sampleRV (sampleVar VariableType.flow 4 0 10) 5 2).handlePos sampleModel
      = ((sampleRV (sampleVar VariableType.flow 2 0 10) 5 2).handlePos sampleModel
          + (sampleRV (sampleVar VariableType.flow 6 0 10) 5 2).handlePos sampleModel) / 2 :=
  handlePos_affine_increasing sampleModel (sampleRV (sampleVar VariableType.flow 2 0 10) 5 2)
    (sampleRV (sampleVar VariableType.flow 6 0 10) 5 2)
    (sampleRV (sampleVar VariableType.flow 4 0 10) 5 2) 5 0 10 (by norm_num) (by norm_num)
    (by norm_num [sampleRV, sampleVar, sampleModel])
    (by norm_num [sampleRV, sampleVar, sampleModel])
    (by norm_num [sampleRV, sampleVar, sampleModel])
    (by norm_num [sampleRV, sampleVar, sampleModel])
    (by norm_num [sampleRV, sampleVar, sampleModel])

/-- C16: `inImage` gives the same answer whatever the zoom factor, whereas the
vertices of `geom` scale with it: for an unrotated variable with `w > 0` and
zoom `z > 1` the third vertex of `geom` is `(x + w*z, y + h*z)` and `inImage`
rejects it. -/
theorem inImage_ignores_zoom (T : Trig K) (hT : T.Lawful) (rv : RenderVariable K) :
    (∀ z x y : K,
      RenderVariable.inImage T { rv with var := { rv.var with zoomFactor := z } } x y
        = rv.inImage T x y) ∧
    (rv.var.rotation = 0 → 0 < rv.w → 1 < rv.var.zoomFactor →
      (rv.geomVertices T)[2]? = some
        { x := rv.var.x + rv.w * rv.var.zoomFactor, y := rv.var.y + rv.h * rv.var.zoomFactor } ∧
      rv.inImage T (rv.var.x + rv.w * rv.var.zoomFactor) (rv.var.y + rv.h * rv.var.zoomFactor)
        = false) := by
  refine ⟨fun z x y => rfl, ?_⟩
  intro hr hw hz
  constructor
  · simp only [RenderVariable.geomVertices, Rotate.ctor, Rotate.apply, hr, zero_mul, zero_div,
      hT.cos_zero, hT.sin_zero, List.getElem?_cons_succ, List.getElem?_cons_zero,
      Option.some.injEq, Point.mk.injEq]
    constructor <;> ring
  · simp only [RenderVariable.inImage, hr, zero_mul, zero_div, hT.cos_zero, hT.sin_zero,
      add_sub_cancel_left, mul_one, mul_zero, sub_zero, add_zero]
    have hgt : ¬ (rv.w * rv.var.zoomFactor ≤ rv.w) := by
      have : rv.w * 1 < rv.w * rv.var.zoomFactor := mul_lt_mul_of_pos_left hz hw
      rw [mul_one] at this
      exact not_le.mpr this
    simp [hgt]

/-- C16 at a concrete variable: half-extents 10 and 5, unrotated, at zoom 2. -/
theorem inImage_ignores_zoom_witness :
    (sampleRV { sampleVar VariableType.flow 0 0 10 with zoomFactor := 2 } 10 5).inImage
      ratTrig (0 + 10 * 2) (0 + 5 * 2) = false :=
  ((inImage_ignores_zoom ratTrig ratTrig_lawful
    (sampleRV { sampleVar VariableType.flow 0 0 10 with zoomFactor := 2 } 10 5)).2
      rfl (by norm_num [sampleRV]) (by norm_num [sampleRV, sampleVar])).2

/-- C17: for a half-width `w > 0` and bounds `sliderMin < sliderMax` (as the
slider mutators leave them), `handlePos` is `-w/2`, not `-w`, at
`value = sliderMin`, `+w/2` at `value = sliderMax` and 0 at the midpoint, and
for a value within the bounds it lies in `[-w/2, +w/2]`.  The handle spans
exactly that interval: every point `p` of `[-w/2, +w/2]` has a value `v` within
the bounds at which `handlePos` returns `p`, for every item model and variable
with these bounds and that value, and such a model and variable exist. -/
theorem handlePos_half_span (w lo hi : K) (hw : 0 < w) (hb : lo < hi) :
    (∀ (I : ItemModel K) (rv : RenderVariable K), rv.w = w →
      (I.adjustSliderBounds (I.initSliderBounds rv.var)).sliderMin = lo →
      (I.adjustSliderBounds (I.initSliderBounds rv.var)).sliderMax = hi →
      ((I.adjustSliderBounds (I.initSliderBounds rv.var)).value = lo →
        rv.handlePos I = -w / 2 ∧ rv.handlePos I ≠ -w) ∧
      ((I.adjustSliderBounds (I.initSliderBounds rv.var)).value = hi →
        rv.handlePos I = w / 2) ∧
      ((I.adjustSliderBounds (I.initSliderBounds rv.var)).value = (lo + hi) / 2 →
        rv.handlePos I = 0) ∧
      (lo ≤ (I.adjustSliderBounds (I.initSliderBounds rv.var)).value →
        (I.adjustSliderBounds (I.initSliderBounds rv.var)).value ≤ hi →
        -w / 2 ≤ rv.handlePos I ∧ rv.handlePos I ≤ w / 2)) ∧
    (∀ p : K, -w / 2 ≤ p → p ≤ w / 2 →
      ∃ v : K, lo ≤ v ∧ v ≤ hi ∧
        (∀ (I : ItemModel K) (rv : RenderVariable K), rv.w = w →
          (I.adjustSliderBounds (I.initSliderBounds rv.var)).sliderMin = lo →
          (I.adjustSliderBounds (I.initSliderBounds rv.var)).sliderMax = hi →
          (I.adjustSliderBounds (I.initSliderBounds rv.var)).value = v →
          rv.handlePos I = p) ∧
        (sliderRV K w lo hi v).w = w ∧
        ((sliderModel K).adjustSliderBounds
          ((sliderModel K).initSliderBounds (sliderRV K w lo hi v).var)).sliderMin = lo ∧
        ((sliderModel K).adjustSliderBounds
          ((sliderModel K).initSliderBounds (sliderRV K w lo hi v).var)).sliderMax = hi ∧
        ((sliderModel K).adjustSliderBounds
          ((sliderModel K).initSliderBounds (sliderRV K w lo hi v).var)).value = v ∧
        (sliderRV K w lo hi v).handlePos (sliderModel K) = p) := by
  have hd : 0 < hi - lo := sub_pos.mpr hb
  have hd0 : hi - lo ≠ 0 := ne_of_gt hd
  have hw0 : w ≠ 0 := ne_of_gt hw
  have formula : ∀ (I : ItemModel K) (rv : RenderVariable K) (v : K), rv.w = w →
      (I.adjustSliderBounds (I.initSliderBounds rv.var)).sliderMin = lo →
      (I.adjustSliderBounds (I.initSliderBounds rv.var)).sliderMax = hi →
      (I.adjustSliderBounds (I.initSliderBounds rv.var)).value = v →
      rv.handlePos I = w * (v - 0.5 * (lo + hi)) / (hi - lo) := by
    intro I rv v h1 h2 h3 h4
    rw [handlePos_formula, h1, h2, h3, h4]
  constructor
  · intro I rv h1 h2 h3
    refine ⟨?_, ?_, ?_, ?_⟩
    · intro hv
      have key : rv.handlePos I = -w / 2 := by
        rw [formula I rv lo h1 h2 h3 hv]
        field_simp
        ring
      refine ⟨key, ?_⟩
      rw [key]
      intro h
      have : w = 0 := by linarith
      exact hw0 this
    · intro hv
      rw [formula I rv hi h1 h2 h3 hv]
      field_simp
      ring
    · intro hv
      rw [formula I rv _ h1 h2 h3 hv]
      have h0 : (lo + hi) / 2 - 0.5 * (lo + hi) = 0 := by
        norm_num
        ring
      rw [h0, mul_zero, zero_div]
    · intro hlo hhi
      rw [formula I rv _ h1 h2 h3 rfl]
      have g1 : 0 ≤ w * ((I.adjustSliderBounds (I.initSliderBounds rv.var)).value - lo) :=
        mul_nonneg hw.le (sub_nonneg.mpr hlo)
      have g2 : 0 ≤ w * (hi - (I.adjustSliderBounds (I.initSliderBounds rv.var)).value) :=
        mul_nonneg hw.le (sub_nonneg.mpr hhi)
      constructor
      · rw [le_div_iff₀ hd]
        norm_num
        linarith
      · rw [div_le_iff₀ hd]
        norm_num
        linarith
  · intro p hp1 hp2
    have hvlo : lo ≤ (lo + hi) / 2 + p * (hi - lo) / w := by
      have h : -(hi - lo) / 2 ≤ p * (hi - lo) / w := by
        rw [le_div_iff₀ hw]
        nlinarith [mul_nonneg hd.le (sub_nonneg.mpr hp1)]
      linarith
    have hvhi : (lo + hi) / 2 + p * (hi - lo) / w ≤ hi := by
      have h : p * (hi - lo) / w ≤ (hi - lo) / 2 := by
        rw [div_le_iff₀ hw]
        nlinarith [mul_nonneg hd.le (sub_nonneg.mpr hp2)]
      linarith
    have hall : ∀ (I : ItemModel K) (rv : RenderVariable K), rv.w = w →
        (I.adjustSliderBounds (I.initSliderBounds rv.var)).sliderMin = lo →
        (I.adjustSliderBounds (I.initSliderBounds rv.var)).sliderMax = hi →
        (I.adjustSliderBounds (I.initSliderBounds rv.var)).value
          = (lo + hi) / 2 + p * (hi - lo) / w →
        rv.handlePos I = p := by
      intro I rv h1 h2 h3 h4
      rw [formula I rv _ h1 h2 h3 h4]
      field_simp
      ring
    have e1 : ((sliderModel K).adjustSliderBounds ((sliderModel K).initSliderBounds
        (sliderRV K w lo hi ((lo + hi) / 2 + p * (hi - lo) / w)).var)).sliderMin = lo := by
      simp only [sliderModel, sliderRV]
      exact min_eq_left hvlo
    have e2 : ((sliderModel K).adjustSliderBounds ((sliderModel K).initSliderBounds
        (sliderRV K w lo hi ((lo + hi) / 2 + p * (hi - lo) / w)).var)).sliderMax = hi := by
      simp only [sliderModel, sliderRV]
      exact max_eq_left hvhi
    exact ⟨(lo + hi) / 2 + p * (hi - lo) / w, hvlo, hvhi, hall, rfl, e1, e2, rfl,
      hall (sliderModel K) _ rfl e1 e2 rfl⟩

/-- C17 at half-width 5 and bounds 0 and 10: the sample variable with value 0
has handle position -5/2, not -5, and the handle position 1 is attained. -/
theorem handlePos_half_span_witness :
    ((sampleRV (sampleVar VariableType.flow 0 0 10) 5 2).handlePos sampleModel = -5 / 2 ∧
      (sampleRV (sampleVar VariableType.flow 0 0 10) 5 2).handlePos sampleModel ≠ -5) ∧
    (∃ v : ℚ, 0 ≤ v ∧ v ≤ 10 ∧ (sliderRV ℚ 5 0 10 v).handlePos (sliderModel ℚ) = 1) :=
  have h := handlePos_half_span (5 : ℚ) 0 10 (by norm_num) (by norm_num)
  ⟨(h.1 sampleModel (sampleRV (sampleVar VariableType.flow 0 0 10) 5 2) rfl
      (by norm_num [sampleRV, sampleVar, sampleModel])
      (by norm_num [sampleRV, sampleVar, sampleModel])).1
      (by norm_num [sampleRV, sampleVar, sampleModel]),
    (h.2 1 (by norm_num) (by norm_num)).imp
      (fun _ hv => ⟨hv.1, hv.2.1, hv.2.2.2.2.2.2.2⟩)⟩

/-- The vertices of `RenderOperation::geom` are determined by the operation's
raw extents and pose. -/
theorem op_geomVertices_congr (T : Trig K) (ro ro' : RenderOperation K)
    (hl : ro'.op.l = ro.op.l) (hr : ro'.op.r = ro.op.r) (hh : ro'.op.h = ro.op.h)
    (hx : ro'.op.x = ro.op.x) (hy : ro'.op.y = ro.op.y)
    (hrot : ro'.op.rotation = ro.op.rotation) (hz : ro'.op.zoomFactor = ro.op.zoomFactor) :
    ro'.geomVertices T = ro.geomVertices T := by
  simp only [RenderOperation.geomVertices, hl, hr, hh, hx, hy, hrot, hz]

/-- C18: `RenderOperation::geom` is determined by the raw extents `l`, `r`, `h`,
the position, the rotation and the zoom: two operations that agree on these
get the same polygon whatever the text metrics, the embedded variable and the
embed offset, even where the computed widths differ.  For a coupled
integration operation with `intVarOffset + embedded width > 0` (and zoom
`> 0`, as for every pose) the extent `(r - l)*zoom` of the polygon along the
item's own axis is strictly smaller than twice the computed width times
zoom. -/
theorem geom_ignores_computed_size (T : Trig K) (M M' : TextMetrics K) (I I' : ItemModel K)
    (op op' : OperationBase K)
    (hl : op'.l = op.l) (hr : op'.r = op.r) (hh : op'.h = op.h) (hx : op'.x = op.x)
    (hy : op'.y = op.y) (hrot : op'.rotation = op.rotation)
    (hz : op'.zoomFactor = op.zoomFactor) :
    (∀ ro ro', RenderOperation.ctor M I op = .ok ro → RenderOperation.ctor M' I' op' = .ok ro' →
      ro'.geomVertices T = ro.geomVertices T ∧
      ∀ correct : Polygon K → Polygon K, ro'.geom T correct = ro.geom T correct) ∧
    (op.type = OperationType.constant ∨ op.type = OperationType.data →
      (M'.measure 10 (M'.latexToPango op.description)).width
        ≠ (M.measure 10 (M.latexToPango op.description)).width →
      ∃ ro ro', RenderOperation.ctor M I op = .ok ro ∧ RenderOperation.ctor M' I' op = .ok ro' ∧
        ro'.width ≠ ro.width ∧ ro'.geomVertices T = ro.geomVertices T) ∧
    (op.type = OperationType.integrate → op.coupled = true →
      op'.type = OperationType.integrate → op'.coupled = true →
      ∀ rv rv', RenderVariable.ctor M I op.intVar = .ok rv →
        RenderVariable.ctor M' I' op'.intVar = .ok rv' →
        op'.intVarOffset + rv'.width ≠ op.intVarOffset + rv.width →
        ∃ ro ro', RenderOperation.ctor M I op = .ok ro ∧
          RenderOperation.ctor M' I' op' = .ok ro' ∧
          ro'.width ≠ ro.width ∧ ro'.geomVertices T = ro.geomVertices T) ∧
    (op.type = OperationType.integrate → op.coupled = true →
      ∀ rv, RenderVariable.ctor M I op.intVar = .ok rv →
        0 < op.intVarOffset + rv.width → 0 < op.zoomFactor →
        ∃ ro, RenderOperation.ctor M I op = .ok ro ∧
          (op.r - op.l) * op.zoomFactor < 2 * ro.width * op.zoomFactor) ∧
    (T.Lawful → ∀ ro : RenderOperation K, ro.op = op →
      ∃ p1 p2 p3, ro.geomVertices T = [p1, p2, p3] ∧
        T.cos (op.rotation * T.pi / 180) * (p3.x - p1.x)
          + T.sin (op.rotation * T.pi / 180) * (p3.y - p1.y)
          = (op.r - op.l) * op.zoomFactor) := by
  have frame : ∀ (M1 M2 : TextMetrics K) (I1 I2 : ItemModel K) (o1 o2 : OperationBase K)
      (ro ro' : RenderOperation K), o2.l = o1.l → o2.r = o1.r → o2.h = o1.h → o2.x = o1.x →
      o2.y = o1.y → o2.rotation = o1.rotation → o2.zoomFactor = o1.zoomFactor →
      RenderOperation.ctor M1 I1 o1 = .ok ro → RenderOperation.ctor M2 I2 o2 = .ok ro' →
      ro'.geomVertices T = ro.geomVertices T := by
    intro M1 M2 I1 I2 o1 o2 ro ro' e1 e2 e3 e4 e5 e6 e7 h1 h2
    have g1 := op_ctor_op M1 I1 o1 ro h1
    have g2 := op_ctor_op M2 I2 o2 ro' h2
    apply op_geomVertices_congr <;> rw [g1, g2] <;> assumption
  refine ⟨?_, ?_, ?_, ?_, ?_⟩
  · intro ro ro' h1 h2
    have hv := frame M M' I I' op op' ro ro' hl hr hh hx hy hrot hz h1 h2
    refine ⟨hv, fun correct => ?_⟩
    simp only [RenderOperation.geom, hv]
  · intro ht hne
    refine ⟨_, _, op_ctor_labelled M I op ht, op_ctor_labelled M' I' op ht, ?_, ?_⟩
    · simp only [RenderOperation.width]
      intro h
      apply hne
      have h2 : (0.5 : K) * (M'.measure 10 (M'.latexToPango op.description)).width
          = 0.5 * (M.measure 10 (M.latexToPango op.description)).width := by linarith
      have h3 : (0.5 : K) ≠ 0 := by norm_num
      exact mul_left_cancel₀ h3 h2
    · exact frame M M' I I' op op _ _ rfl rfl rfl rfl rfl rfl rfl
        (op_ctor_labelled M I op ht) (op_ctor_labelled M' I' op ht)
  · intro ht hc ht' hc' rv rv' hrv hrv' hne
    have h1 : RenderOperation.ctor M I op = .ok
        { op := op, w := 0.5 * (-op.l + op.r) + (op.intVarOffset + rv.width),
          h := max op.h rv.height, hoffs := 0 } := by
      rw [op_ctor_coupled M I op ht hc, hrv]
    have h2 : RenderOperation.ctor M' I' op' = .ok
        { op := op', w := 0.5 * (-op'.l + op'.r) + (op'.intVarOffset + rv'.width),
          h := max op'.h rv'.height, hoffs := 0 } := by
      rw [op_ctor_coupled M' I' op' ht' hc', hrv']
    refine ⟨_, _, h1, h2, ?_, frame M M' I I' op op' _ _ hl hr hh hx hy hrot hz h1 h2⟩
    simp only [RenderOperation.width, hl, hr]
    intro h
    apply hne
    linarith
  · intro ht hc rv hrv hpos hzpos
    refine ⟨{ op := op, w := 0.5 * (-op.l + op.r) + (op.intVarOffset + rv.width),
              h := max op.h rv.height, hoffs := 0 }, ?_, ?_⟩
    · rw [op_ctor_coupled M I op ht hc, hrv]
    · simp only [RenderOperation.width]
      apply mul_lt_mul_of_pos_right _ hzpos
      norm_num
      linarith
  · intro hT ro hro
    have hcs := hT.cos_sq_add_sin_sq (op.rotation * T.pi / 180)
    refine ⟨_, _, _, rfl, ?_⟩
    simp only [hro, Rotate.ctor, Rotate.apply]
    linear_combination ((op.r - op.l) * op.zoomFactor) * hcs

/-- C18 at two sample coupled integration operations that differ in the embed
offset (5 and 7): widths 23 and 25, the same polygon, and extent 20 < 46. -/
theorem geom_ignores_computed_size_witness :
    (∃ ro ro', RenderOperation.ctor sampleMetrics sampleModel
          (sampleOp OperationType.integrate true (sampleVar VariableType.constant (1/20) 0 1))
            = .ok ro ∧
        RenderOperation.ctor sampleMetrics sampleModel
          { sampleOp OperationType.integrate true (sampleVar VariableType.constant (1/20) 0 1)
            with intVarOffset := 7 } = .ok ro' ∧
        ro'.width ≠ ro.width ∧ ro'.geomVertices ratTrig = ro.geomVertices ratTrig) ∧
    (∃ ro, RenderOperation.ctor sampleMetrics sampleModel
          (sampleOp OperationType.integrate true (sampleVar VariableType.constant (1/20) 0 1))
            = .ok ro ∧ (10 - (-10)) * 1 < 2 * ro.width * 1) := by
  have hrv : RenderVariable.ctor sampleMetrics sampleModel
      (sampleVar VariableType.constant (1/20) 0 1) = .ok
        { pango := { fontSize := 12, markup := "0.05" },
          var := sampleVar VariableType.constant (1/20) 0 1, w := 8, h := 6, hoffs := 1 } :=
    (ctor_constant_ok sampleMetrics sampleModel _ "0.05" rfl sample_label_small).trans
      (by norm_num [sampleMetrics, sampleVar, show "0.05".length = 4 from rfl])
  have h := geom_ignores_computed_size ratTrig sampleMetrics sampleMetrics sampleModel
    sampleModel
    (sampleOp OperationType.integrate true (sampleVar VariableType.constant (1/20) 0 1))
    { sampleOp OperationType.integrate true (sampleVar VariableType.constant (1/20) 0 1)
      with intVarOffset := 7 } rfl rfl rfl rfl rfl rfl rfl
  exact ⟨h.2.2.1 rfl rfl rfl rfl _ _ hrv hrv (by norm_num [sampleOp, RenderVariable.width]),
    h.2.2.2.1 rfl rfl _ hrv (by norm_num [sampleOp, RenderVariable.width])
      (by norm_num [sampleOp])⟩

end

end minsky
